import Mathlib

/-!
Verification of the PocketMCP Python client (`pocket_mcp_client.py`).

The development shallowly embeds the JSON-RPC core of the client: the JSON
value model, the subset of Python's `json.loads` the client relies on
(JSON numbers with a fraction or exponent are kept opaquely as their lexeme,
since floating point is out of scope), base-URL normalization, request
envelope construction, the id counter, the socket receive loop, response
envelope inspection, the HTTP retry policy, tool-result decoding, and the
validation layer of `call_tool`.
-/

namespace PocketMCP

/-- JSON values as Python's `json` module produces them.  A number without a
fraction or exponent is an `Int`; any other numeric lexeme (which Python
would read as a float) is kept opaquely as `flt` of its lexeme, because
floating-point semantics are outside this model. -/
inductive JVal where
  | null
  | bool (b : Bool)
  | num (n : Int)
  | flt (lexeme : String)
  | str (s : String)
  | arr (elems : List JVal)
  | obj (fields : List (String × JVal))
deriving Repr

mutual

/-- Structural equality test for `JVal`. -/
def jbeq : JVal → JVal → Bool
  | .null, .null => true
  | .bool a, .bool b => a == b
  | .num a, .num b => a == b
  | .flt a, .flt b => a == b
  | .str a, .str b => a == b
  | .arr a, .arr b => jbeqList a b
  | .obj a, .obj b => jbeqFields a b
  | _, _ => false

/-- Pointwise structural equality on lists of values. -/
def jbeqList : List JVal → List JVal → Bool
  | [], [] => true
  | x :: xs, y :: ys => jbeq x y && jbeqList xs ys
  | _, _ => false

/-- Pointwise structural equality on field lists. -/
def jbeqFields : List (String × JVal) → List (String × JVal) → Bool
  | [], [] => true
  | (k₁, v₁) :: xs, (k₂, v₂) :: ys => k₁ == k₂ && jbeq v₁ v₂ && jbeqFields xs ys
  | _, _ => false

end

mutual

theorem jbeq_iff_eq : ∀ a b : JVal, jbeq a b = true ↔ a = b
  | .null, .null => by simp [jbeq]
  | .bool _, .bool _ => by simp [jbeq]
  | .num _, .num _ => by simp [jbeq]
  | .flt _, .flt _ => by simp [jbeq]
  | .str _, .str _ => by simp [jbeq]
  | .arr x, .arr y => by simp [jbeq, jbeqList_iff_eq x y]
  | .obj x, .obj y => by simp [jbeq, jbeqFields_iff_eq x y]
  | .null, .bool _ | .null, .num _ | .null, .flt _ | .null, .str _
  | .null, .arr _ | .null, .obj _
  | .bool _, .null | .bool _, .num _ | .bool _, .flt _ | .bool _, .str _
  | .bool _, .arr _ | .bool _, .obj _
  | .num _, .null | .num _, .bool _ | .num _, .flt _ | .num _, .str _
  | .num _, .arr _ | .num _, .obj _
  | .flt _, .null | .flt _, .bool _ | .flt _, .num _ | .flt _, .str _
  | .flt _, .arr _ | .flt _, .obj _
  | .str _, .null | .str _, .bool _ | .str _, .num _ | .str _, .flt _
  | .str _, .arr _ | .str _, .obj _
  | .arr _, .null | .arr _, .bool _ | .arr _, .num _ | .arr _, .flt _
  | .arr _, .str _ | .arr _, .obj _
  | .obj _, .null | .obj _, .bool _ | .obj _, .num _ | .obj _, .flt _
  | .obj _, .str _ | .obj _, .arr _ => by simp [jbeq]

theorem jbeqList_iff_eq : ∀ xs ys : List JVal, jbeqList xs ys = true ↔ xs = ys
  | [], [] => by simp [jbeqList]
  | x :: xs, y :: ys => by simp [jbeqList, jbeq_iff_eq x y, jbeqList_iff_eq xs ys]
  | [], _ :: _ => by simp [jbeqList]
  | _ :: _, [] => by simp [jbeqList]

theorem jbeqFields_iff_eq :
    ∀ xs ys : List (String × JVal), jbeqFields xs ys = true ↔ xs = ys
  | [], [] => by simp [jbeqFields]
  | (k₁, v₁) :: xs, (k₂, v₂) :: ys => by
    simp [jbeqFields, jbeq_iff_eq v₁ v₂, jbeqFields_iff_eq xs ys, and_assoc]
  | [], _ :: _ => by simp [jbeqFields]
  | _ :: _, [] => by simp [jbeqFields]

end

instance : DecidableEq JVal := fun a b =>
  decidable_of_iff (jbeq a b = true) (jbeq_iff_eq a b)

instance {ε α : Type} [DecidableEq ε] [DecidableEq α] :
    DecidableEq (Except ε α) := fun a b =>
  match a, b with
  | .ok x, .ok y =>
    if h : x = y then .isTrue (h ▸ rfl)
    else .isFalse (fun hh => h (Except.ok.inj hh))
  | .error x, .error y =>
    if h : x = y then .isTrue (h ▸ rfl)
    else .isFalse (fun hh => h (Except.error.inj hh))
  | .ok _, .error _ => .isFalse Except.noConfusion
  | .error _, .ok _ => .isFalse Except.noConfusion

/-- `fields.get(k)` on a Python dict, as `Option`.  Field lists built by this
development never repeat a key (the parser overwrites duplicates as Python
does), so first-match lookup is the dict lookup. -/
def jGet (fields : List (String × JVal)) (k : String) : Option JVal :=
  List.lookup k fields

/-- `fields.get(k, d)`: lookup with a default. -/
def jGetD (fields : List (String × JVal)) (k : String) (d : JVal) : JVal :=
  (jGet fields k).getD d

/-- `k in fields` on a Python dict. -/
def hasKey (fields : List (String × JVal)) (k : String) : Bool :=
  (jGet fields k).isSome

/-- Python truthiness of a JSON value: `None`, `False`, `0`, `""`, `[]` and
an empty dict are falsy.  An opaque float lexeme is treated as truthy (the
lexeme `0.0` would be falsy in Python; floating point is outside this
model and no claim depends on it). -/
def truthy : JVal → Bool
  | .null => false
  | .bool b => b
  | .num n => n != 0
  | .flt _ => true
  | .str s => s != ""
  | .arr xs => !xs.isEmpty
  | .obj fs => !fs.isEmpty

/-- A single-quote character, for Python `repr` of strings. -/
def squote : String := String.singleton (Char.ofNat 39)

mutual

/-- Python `repr` of a JSON value (used by `str` on lists and dicts).
Strings are rendered single-quoted without re-escaping their content,
which is exact for the quote-free strings this client handles. -/
def pyRepr : JVal → String
  | .null => "None"
  | .bool true => "True"
  | .bool false => "False"
  | .num n => toString n
  | .flt lex => lex
  | .str s => squote ++ s ++ squote
  | .arr xs => "[" ++ pyReprList xs ++ "]"
  | .obj fs => "\x7b" ++ pyReprFields fs ++ "\x7d"

/-- Comma-joined `repr`s of list elements. -/
def pyReprList : List JVal → String
  | [] => ""
  | [x] => pyRepr x
  | x :: xs => pyRepr x ++ ", " ++ pyReprList xs

/-- Comma-joined `repr`s of dict entries. -/
def pyReprFields : List (String × JVal) → String
  | [] => ""
  | [(k, v)] => squote ++ k ++ squote ++ ": " ++ pyRepr v
  | (k, v) :: fs => squote ++ k ++ squote ++ ": " ++ pyRepr v ++ ", " ++ pyReprFields fs

end

/-- Python `str` of a JSON value: identity on strings, `repr` otherwise. -/
def pyStr : JVal → String
  | .str s => s
  | v => pyRepr v

/-! ### The subset of `json.loads` the client relies on

A fuel-indexed recursive-descent parser over the JSON grammar exactly as
Python's `json` module reads it in its default configuration: the four
whitespace characters, strict strings (raw control characters refused, the
nine escapes), `0|[1-9][0-9]*` integer parts, optional fraction/exponent
(which Python reads as a float; kept here as an opaque lexeme), the
constants `NaN`/`Infinity`/`-Infinity`, no trailing commas, duplicate
object keys overwritten in place, and trailing non-whitespace refused. -/

/-- JSON whitespace (`json` module: space, tab, newline, carriage return). -/
def isJsonWs (c : Char) : Bool :=
  c = ' ' || c = '\t' || c = '\n' || c = '\r'

/-- Drop leading JSON whitespace. -/
def skipWs (cs : List Char) : List Char := cs.dropWhile isJsonWs

/-- ASCII digit test. -/
def isDigitC (c : Char) : Bool := '0' ≤ c && c ≤ '9'

/-- Numeric value of an ASCII digit. -/
def digitVal (c : Char) : Nat := c.toNat - 48

/-- Value of a hexadecimal digit, if any. -/
def hexVal (c : Char) : Option Nat :=
  if '0' ≤ c && c ≤ '9' then some (c.toNat - 48)
  else if 'a' ≤ c && c ≤ 'f' then some (c.toNat - 87)
  else if 'A' ≤ c && c ≤ 'F' then some (c.toNat - 55)
  else none

/-- Digits to the natural number they denote. -/
def digitsToNat (ds : List Char) : Nat :=
  ds.foldl (fun a c => a * 10 + digitVal c) 0

/-- Store a parsed object member as Python's dict construction does: a
repeated key overwrites the earlier value in place, a new key appends. -/
def objInsert (fs : List (String × JVal)) (k : String) (v : JVal) :
    List (String × JVal) :=
  if fs.any (fun p => p.1 = k) then
    fs.map (fun p => if p.1 = k then (k, v) else p)
  else fs ++ [(k, v)]

/-- Body of a JSON string, after the opening quote: characters up to the
closing quote, with the nine escapes; raw control characters refused.
`\u` escapes become the character of their code unit (surrogate halves,
which Lean's `Char` cannot carry, fall to the null character; no claim
exercises them). -/
def parseStrBody : Nat → List Char → List Char → Option (String × List Char)
  | 0, _, _ => none
  | _ + 1, _, [] => none
  | fuel + 1, acc, c :: rest =>
    if c = '"' then some (String.mk acc.reverse, rest)
    else if c = '\\' then
      match rest with
      | [] => none
      | e :: rest2 =>
        if e = '"' then parseStrBody fuel ('"' :: acc) rest2
        else if e = '\\' then parseStrBody fuel ('\\' :: acc) rest2
        else if e = '/' then parseStrBody fuel ('/' :: acc) rest2
        else if e = 'b' then parseStrBody fuel ('\x08' :: acc) rest2
        else if e = 'f' then parseStrBody fuel ('\x0C' :: acc) rest2
        else if e = 'n' then parseStrBody fuel ('\n' :: acc) rest2
        else if e = 'r' then parseStrBody fuel ('\r' :: acc) rest2
        else if e = 't' then parseStrBody fuel ('\t' :: acc) rest2
        else if e = 'u' then
          match rest2 with
          | h1 :: h2 :: h3 :: h4 :: rest3 =>
            match hexVal h1, hexVal h2, hexVal h3, hexVal h4 with
            | some a, some b, some c2, some d =>
              parseStrBody fuel
                (Char.ofNat (((a * 16 + b) * 16 + c2) * 16 + d) :: acc) rest3
            | _, _, _, _ => none
          | _ => none
        else none
    else if c.toNat < 32 then none
    else parseStrBody fuel (c :: acc) rest

/-- A JSON number starting at the head of the input, exactly as the `json`
module's number regex matches it: optional minus, `0` or a nonzero-led
digit run, then an optional fraction and exponent.  Without fraction and
exponent the result is an integer; otherwise the matched lexeme is kept
opaquely as a float. -/
def parseNum (cs : List Char) : Option (JVal × List Char) :=
  let signed := match cs with
    | '-' :: rest => (true, rest)
    | _ => (false, cs)
  let sign := signed.1
  let cs1 := signed.2
  match cs1 with
  | [] => none
  | c :: _ =>
    if !isDigitC c then none
    else
      let intPart :=
        if c = '0' then ([c], cs1.tail)
        else cs1.span isDigitC
      let intDigits := intPart.1
      let cs2 := intPart.2
      let fracPart :=
        match cs2 with
        | '.' :: ds =>
          let fds := ds.span isDigitC
          if fds.1 = [] then (([] : List Char), cs2)
          else ('.' :: fds.1, fds.2)
        | _ => (([] : List Char), cs2)
      let frac := fracPart.1
      let cs3 := fracPart.2
      let expPart :=
        match cs3 with
        | e :: ds =>
          if e = 'e' || e = 'E' then
            match ds with
            | s :: ds2 =>
              if s = '+' || s = '-' then
                let eds := ds2.span isDigitC
                if eds.1 = [] then (([] : List Char), cs3)
                else (e :: s :: eds.1, eds.2)
              else
                let eds := ds.span isDigitC
                if eds.1 = [] then (([] : List Char), cs3)
                else (e :: eds.1, eds.2)
            | [] => (([] : List Char), cs3)
          else (([] : List Char), cs3)
        | _ => (([] : List Char), cs3)
      let expo := expPart.1
      let cs4 := expPart.2
      if frac = [] && expo = [] then
        let n : Int := Int.ofNat (digitsToNat intDigits)
        some (.num (if sign then -n else n), cs2)
      else
        some (.flt (String.mk
          ((if sign then ['-'] else []) ++ intDigits ++ frac ++ expo)), cs4)

mutual

/-- One JSON value starting at the input (leading whitespace allowed), as
the `json` module's scanner reads it. -/
def parseVal : Nat → List Char → Option (JVal × List Char)
  | 0, _ => none
  | fuel + 1, cs =>
    match skipWs cs with
    | [] => none
    | 't' :: 'r' :: 'u' :: 'e' :: rest => some (.bool true, rest)
    | 'f' :: 'a' :: 'l' :: 's' :: 'e' :: rest => some (.bool false, rest)
    | 'n' :: 'u' :: 'l' :: 'l' :: rest => some (.null, rest)
    | 'N' :: 'a' :: 'N' :: rest => some (.flt "NaN", rest)
    | 'I' :: 'n' :: 'f' :: 'i' :: 'n' :: 'i' :: 't' :: 'y' :: rest =>
        some (.flt "Infinity", rest)
    | '-' :: 'I' :: 'n' :: 'f' :: 'i' :: 'n' :: 'i' :: 't' :: 'y' :: rest =>
        some (.flt "-Infinity", rest)
    | '"' :: rest =>
        (parseStrBody (rest.length + 1) [] rest).map
          (fun p => (JVal.str p.1, p.2))
    | '{' :: rest => parseObjStart fuel rest
    | '[' :: rest => parseArrStart fuel rest
    | c :: rest =>
        if c = '-' || isDigitC c then parseNum (c :: rest) else none

/-- Just after `{`: an empty object, or its members. -/
def parseObjStart : Nat → List Char → Option (JVal × List Char)
  | 0, _ => none
  | fuel + 1, cs =>
    match skipWs cs with
    | '}' :: rest => some (.obj [], rest)
    | _ => parseObjMembers fuel [] cs

/-- Members of an object: quoted key, colon, value, then comma or brace. -/
def parseObjMembers :
    Nat → List (String × JVal) → List Char → Option (JVal × List Char)
  | 0, _, _ => none
  | fuel + 1, acc, cs =>
    match skipWs cs with
    | '"' :: rest =>
      match parseStrBody (rest.length + 1) [] rest with
      | none => none
      | some (k, r1) =>
        match skipWs r1 with
        | ':' :: r2 =>
          match parseVal fuel r2 with
          | none => none
          | some (v, r3) =>
            match skipWs r3 with
            | ',' :: r4 => parseObjMembers fuel (objInsert acc k v) r4
            | '}' :: r4 => some (.obj (objInsert acc k v), r4)
            | _ => none
        | _ => none
    | _ => none

/-- Just after `[`: an empty array, or its elements. -/
def parseArrStart : Nat → List Char → Option (JVal × List Char)
  | 0, _ => none
  | fuel + 1, cs =>
    match skipWs cs with
    | ']' :: rest => some (.arr [], rest)
    | _ => parseArrElems fuel [] cs

/-- Elements of an array: a value, then comma or bracket. -/
def parseArrElems :
    Nat → List JVal → List Char → Option (JVal × List Char)
  | 0, _, _ => none
  | fuel + 1, acc, cs =>
    match parseVal fuel cs with
    | none => none
    | some (v, r1) =>
      match skipWs r1 with
      | ',' :: r2 => parseArrElems fuel (v :: acc) r2
      | ']' :: r2 => some (.arr (v :: acc).reverse, r2)
      | _ => none

end

/-- `json.loads`: one complete value, with only whitespace around it. -/
def json_loads (s : String) : Option JVal :=
  match parseVal (4 * s.length + 8) s.toList with
  | some (v, rest) => if (skipWs rest).isEmpty then some v else none
  | none => none

example : json_loads "\x7b\"a\":1\x7d" = some (.obj [("a", .num 1)]) := by decide
example : json_loads "plain" = none := by decide
example : json_loads " [1, true, null, \"x\"] " =
    some (.arr [.num 1, .bool true, .null, .str "x"]) := by decide
example : json_loads "-12" = some (.num (-12)) := by decide
example : json_loads "1.5e3" = some (.flt "1.5e3") := by decide
example : json_loads "01" = none := by decide
example : json_loads "\x7b\"a\":1,\"a\":2\x7d" =
    some (.obj [("a", .num 2)]) := by decide
example : json_loads "" = none := by decide

/-! ### Base-URL normalization (`PocketMCPClient._normalize_base_url`) -/

/-- Python `str.strip()` whitespace, restricted to ASCII (the addresses
this client normalizes are ASCII). -/
def isPyWs (c : Char) : Bool :=
  c = ' ' || c = '\t' || c = '\n' || c = '\r' || c = '\x0b' || c = '\x0c'

/-- `s.strip()`. -/
def pyStrip (s : String) : String :=
  String.mk (((s.data.dropWhile isPyWs).reverse.dropWhile isPyWs).reverse)

/-- `s.rstrip("/")`. -/
def rstripSlash (s : String) : String :=
  String.mk ((s.data.reverse.dropWhile (fun c => c = '/')).reverse)

/-- The recognized scheme markers of `_normalize_base_url`. -/
def schemes : List String := ["http://", "https://", "ws://", "wss://"]

/-- `normalized.startswith(("http://", "https://", "ws://", "wss://"))`. -/
def hasScheme (s : String) : Bool :=
  schemes.any (fun p => p.data.isPrefixOf s.data)

/-- `_normalize_base_url`: strip, require non-empty (`none` models the
raised validation error), default the scheme, drop trailing slashes. -/
def normalize_base_url (base_url : String) : Option String :=
  if pyStrip base_url = "" then none
  else some (rstripSlash (if hasScheme (pyStrip base_url) then pyStrip base_url
    else "http://" ++ pyStrip base_url))

/-- The effective RPC endpoint: `_request_json` targets
`f"{self.base_url}{path}"` and `_rpc` posts to path `"/mcp"`. -/
def rpcEndpoint (base_url : String) : Option String :=
  (normalize_base_url base_url).map (fun b => b ++ "/mcp")

/-! ### Request envelope (`PocketMCPClient._rpc`, lines 199–205) -/

/-- The request payload dict in insertion order: `jsonrpc`, `id`, `method`,
and `params` only when supplied. -/
def build_payload (reqId : Int) (method : String) (params : Option JVal) :
    List (String × JVal) :=
  [("jsonrpc", .str "2.0"), ("id", .num reqId), ("method", .str method)] ++
    (match params with
     | none => []
     | some p => [("params", p)])

/-! ### Outcomes

One outcome type for the whole dispatch: `ok` is a returned value, the
error constructors are the client's typed exceptions, and `typeError` is
an unhandled Python `TypeError` escaping `_decode_tool_result` (the code
raises it when a `content` member is not iterable or a collected text
part is a truthy non-string, since `str.join` requires strings). -/
inductive CallOutcome where
  | ok (v : JVal)
  | connError (msg : String)
  | protocolError (msg : String)
  | rpcError (code message data : JVal)
  | toolError (msg : String)
  | validationError (msg : String)
  | typeError
deriving DecidableEq, Repr

/-! ### Response envelope inspection (`_rpc`, lines 234–240, and
`PocketMCPRpcError.__init__`) -/

/-- `if "error" in data: ...` — an `error` member takes precedence; a
non-dict one is a protocol error; a dict one becomes an RPC error whose
`code` and `data` are carried verbatim (`error.get(...)`, `None` when
absent) and whose message is `error.get("message") or "Unknown MCP
error"`.  Without an `error` member, `data.get("result")` is returned. -/
def inspectEnvelope (fields : List (String × JVal)) : CallOutcome :=
  if hasKey fields "error" then
    match jGetD fields "error" .null with
    | .obj efs =>
      let m := jGetD efs "message" .null
      .rpcError (jGetD efs "code" .null)
        (if truthy m then m else .str "Unknown MCP error")
        (jGetD efs "data" .null)
    | _ => .protocolError "Invalid JSON-RPC error payload"
  else .ok (jGetD fields "result" .null)

/-! ### Tool-result decoding (`PocketMCPClient._decode_tool_result`) -/

/-- Python iteration over `result["content"]`: lists yield their elements,
strings their characters, dicts their keys; anything else raises
`TypeError` (`none`). -/
def iterElems : JVal → Option (List JVal)
  | .arr xs => some xs
  | .str s => some (s.data.map (fun c => JVal.str (String.singleton c)))
  | .obj fs => some (fs.map (fun p => JVal.str p.1))
  | _ => none

/-- The list comprehension of `_decode_tool_result`: for each element that
is a dict whose `type` equals `"text"`, take `item.get("text", "")`. -/
def textParts (elems : List JVal) : List JVal :=
  elems.filterMap (fun item =>
    match item with
    | .obj fs =>
      if jGetD fs "type" .null = .str "text" then some (jGetD fs "text" (.str ""))
      else none
    | _ => none)

/-- Whether a value is a Python `str`. -/
def isStrV : JVal → Bool
  | .str _ => true
  | _ => false

/-- The string carried by a `str` value. -/
def asStr : JVal → Option String
  | .str s => some s
  | _ => none

/-- `"\n".join(part for part in text_parts if part)`: keep the truthy
parts; `str.join` requires every kept part to be a string, else
`TypeError` (`none`). -/
def joinTexts (parts : List JVal) : Option String :=
  if (parts.filter truthy).all isStrV then
    some (String.intercalate "\n" ((parts.filter truthy).filterMap asStr))
  else none

/-- `_decode_tool_result`, ordered first-match: truthy `isError` raises a
tool error; a `content` member is scanned for text parts, an empty
concatenation returns the original object, otherwise the concatenation is
parsed as JSON (returned parsed on success, as the raw text on failure);
everything else passes through. -/
def decode_tool_result (result : JVal) : CallOutcome :=
  match result with
  | .obj fs =>
    if truthy (jGetD fs "isError" .null) then
      let t := jGetD fs "toolError" .null
      .toolError (pyStr (if truthy t then t else .str "Unknown tool error"))
    else if hasKey fs "content" then
      match iterElems (jGetD fs "content" .null) with
      | none => .typeError
      | some elems =>
        match joinTexts (textParts elems) with
        | none => .typeError
        | some text =>
          if text = "" then .ok result
          else
            match json_loads text with
            | some v => .ok v
            | none => .ok (.str text)
    else .ok result
  | _ => .ok result

/-! ### Client state, id counter, socket transport (`_next_id`, `_rpc`) -/

/-- The mutable state of one client instance that the dispatch layer
touches: the id counter and the cached socket handle (`self._ws`). -/
structure ClientState where
  id_counter : Nat
  ws : Option Unit
deriving DecidableEq, Repr

/-- A freshly constructed client: counter 0, no socket. -/
def initClient : ClientState := ⟨0, none⟩

/-- `_next_id`: increment, then return the counter. -/
def next_id (c : ClientState) : Nat × ClientState :=
  (c.id_counter + 1, { c with id_counter := c.id_counter + 1 })

/-- The ids assigned by `n` successive dispatches from state `c`. -/
def idsAfter : Nat → ClientState → List Nat
  | 0, _ => []
  | n + 1, c => (next_id c).1 :: idsAfter n (next_id c).2

/-- `data.get("id") == payload["id"]` for an integer request id, with
Python's numeric equality between `bool` and `int`; `None` (absent id)
and every non-numeric value compare unequal. -/
def pyEqInt (v : JVal) (n : Int) : Bool :=
  match v with
  | .num m => m == n
  | .bool b => (if b then (1 : Int) else 0) == n
  | _ => false

/-- The socket receive loop of `_rpc` (lines 222–226) over the stream of
incoming text frames: decode each frame, break on the first whose `id`
matches; an undecodable frame or one without `.get` (a non-dict) raises,
as does exhausting the stream (a receive timeout). -/
def wsDrain (reqId : Int) : List String → Except String (List (String × JVal))
  | [] => .error "timed out"
  | f :: rest =>
    match json_loads f with
    | none => .error "decode"
    | some (.obj fs) =>
      if pyEqInt (jGetD fs "id" .null) reqId then .ok fs
      else wsDrain reqId rest
    | some _ => .error "attribute"

/-- The socket-side environment of one dispatch: whether `ws_connect`
would succeed, whether `send` succeeds, and the incoming frames. -/
structure WsEnv where
  openOk : Bool
  sendOk : Bool
  frames : List String

/-- The socket branch of `_rpc`: assign the id, build the payload, open
the connection when absent (failure raises a connection error and leaves
the handle absent), send and drain (any failure closes and clears the
handle and raises a connection error), then inspect the envelope.
Returns the outcome, the new state, and the payloads actually sent. -/
def wsRpc (c : ClientState) (env : WsEnv) (method : String)
    (params : Option JVal) : CallOutcome × ClientState × List JVal :=
  let idc := next_id c
  let reqId : Int := Int.ofNat idc.1
  let c1 := idc.2
  let payload := JVal.obj (build_payload reqId method params)
  if c1.ws.isNone && !env.openOk then
    (.connError "WebSocket connection failed", c1, [])
  else
    let c2 := { c1 with ws := some () }
    if !env.sendOk then
      (.connError "WebSocket communication failed: send",
        { c2 with ws := none }, [payload])
    else
      match wsDrain reqId env.frames with
      | .error e =>
        (.connError ("WebSocket communication failed: " ++ e),
          { c2 with ws := none }, [payload])
      | .ok fs => (inspectEnvelope fs, c2, [payload])

/-! ### Validation layer (`_require_non_empty`, `call_tool`,
`search_contacts`) -/

/-- `_require_non_empty`: `true` means the validation error is raised
(`value is None or not value.strip()`). -/
def require_non_empty : Option String → Bool
  | none => true
  | some s => pyStrip s = ""

/-- Whether a value is a Python dict. -/
def isObjV : JVal → Bool
  | .obj _ => true
  | _ => false

/-- `call_tool`: validate the name, default falsy arguments to `{}`,
require a dict, then dispatch `tools/call` and decode the result. -/
def call_tool (c : ClientState) (env : WsEnv) (name : Option String)
    (arguments : Option JVal) : CallOutcome × ClientState × List JVal :=
  if require_non_empty name then (.validationError "name is required", c, [])
  else
    let args := match arguments with
      | none => JVal.obj []
      | some a => if truthy a then a else JVal.obj []
    if !isObjV args then (.validationError "arguments must be a JSON object", c, [])
    else
      let r := wsRpc c env "tools/call"
        (some (.obj [("name", .str (name.getD "")), ("arguments", args)]))
      (match r.1 with
       | .ok v => decode_tool_result v
       | e => e, r.2.1, r.2.2)

/-- `search_contacts`: a representative capability wrapper — validate the
query, then forward through `call_tool`. -/
def search_contacts (c : ClientState) (env : WsEnv) (query : Option String)
    (limit : Int) : CallOutcome × ClientState × List JVal :=
  if require_non_empty query then (.validationError "query is required", c, [])
  else call_tool c env (some "search_contacts")
    (some (.obj [("query", .str (query.getD "")), ("limit", .num limit)]))

/-! ### HTTP transport with retry (`__init__` lines 124–136,
`_request_json`) -/

/-- An HTTP response as the retry layer sees it: final status and body.
Redirect resolution happens below this model, so a status here is one the
adapter hands back (which is why `304` can reach `raise_for_status`). -/
structure HttpResp where
  status : Nat
  body : String

/-- The `status_forcelist` configured on the adapter. -/
def status_forcelist : List Nat := [408, 429, 500, 502, 503, 504]

/-- Modelled from the spec: the retry behaviour of the mounted
urllib3 `Retry` adapter, which is library code outside this repository.
Per the spec's retry policy, a response whose status is in the force
list is retried while the budget (`total = max_retries`) remains, re-
sending the same already-built payload; the first status outside the
list, or the exhaustion of the budget, makes that response final.
Returns the payloads sent (one per attempt) and the final response;
`resp i` is the response the server gives to attempt `i`. -/
def retryExchange (payload : JVal) (resp : Nat → HttpResp) :
    Nat → Nat → List JVal × HttpResp
  | 0, i => ([payload], resp i)
  | r + 1, i =>
    if status_forcelist.contains (resp i).status then
      let t := retryExchange payload resp r (i + 1)
      (payload :: t.1, t.2)
    else ([payload], resp i)

/-- `s.replace("\n", " ")`, at character level. -/
def replaceNl (s : String) : String :=
  String.mk (s.data.map (fun c => if c = '\n' then ' ' else c))

/-- `s[:n]`. -/
def takeChars (n : Nat) (s : String) : String := String.mk (s.data.take n)

/-- The diagnostic snippet of a non-JSON body: strip, flatten newlines,
truncate past 220 characters. -/
def snippetOf (body : String) : String :=
  let s := replaceNl (pyStrip body)
  if s.length > 220 then takeChars 220 s ++ "..." else s

/-- `_request_json` for the RPC POST: run the exchange through the retry
adapter, then `raise_for_status` (an `HTTPError` for a 4xx or 5xx final
status, wrapped as a connection error; the exception's own text is
library-rendered and kept abstract here), then decode the body, requiring
a JSON object.  Returns the outcome (`ok` carries the payload object)
and the payloads sent. -/
def http_request_json (url : String) (payload : JVal) (resp : Nat → HttpResp)
    (maxRetries : Nat) : CallOutcome × List JVal :=
  if 400 ≤ (retryExchange payload resp maxRetries 0).2.status &&
      (retryExchange payload resp maxRetries 0).2.status < 600 then
    (.connError "Request failed", (retryExchange payload resp maxRetries 0).1)
  else
    match json_loads (retryExchange payload resp maxRetries 0).2.body with
    | none =>
      (.protocolError ("Non-JSON response from " ++ url ++ ": "
        ++ snippetOf (retryExchange payload resp maxRetries 0).2.body),
       (retryExchange payload resp maxRetries 0).1)
    | some (.obj fs) =>
      (.ok (.obj fs), (retryExchange payload resp maxRetries 0).1)
    | some _ =>
      (.protocolError ("Expected JSON object response from " ++ url),
       (retryExchange payload resp maxRetries 0).1)

/-- The HTTP branch of `_rpc`: `_request_json` then envelope inspection. -/
def http_rpc (url : String) (payload : JVal) (resp : Nat → HttpResp)
    (maxRetries : Nat) : CallOutcome × List JVal :=
  let t := http_request_json url payload resp maxRetries
  (match t.1 with
   | .ok (.obj fs) => inspectEnvelope fs
   | .ok v => .ok v
   | e => e, t.2)

/-! ### Round trip (claim C9) -/

/-- A `content` value that decodes to nothing: it can be iterated and its
text parts joined without a type fault, and the concatenation is empty. -/
def contentInert (c : JVal) : Bool :=
  (((iterElems c).bind (fun elems => joinTexts (textParts elems))).map
    (fun text => text == "")).getD false

/-- A passthrough shape: not a dict with a truthy `isError`, and any
`content` member scans without a type fault to an empty concatenation. -/
def isPassthrough (v : JVal) : Bool :=
  match v with
  | .obj fs =>
    !truthy (jGetD fs "isError" .null) &&
    ((jGet fs "content").map contentInert).getD true
  | _ => true

/-- The newline-concatenation of the non-empty text fields of the
text-typed parts, as the spec describes it — the independent
characterization the decoding theorems are checked against. -/
def decodedText (elems : List JVal) : String :=
  String.intercalate "\n"
    (((textParts elems).filterMap asStr).filter (fun s => s ≠ ""))

/-- Dispatch-then-decode against a synthetic matching response whose
`result` member is `v`: the envelope is inspected as `_rpc` does and the
result fed to `_decode_tool_result`. -/
def roundTrip (v : JVal) : CallOutcome :=
  match inspectEnvelope [("jsonrpc", .str "2.0"), ("id", .num 1), ("result", v)] with
  | .ok r => decode_tool_result r
  | e => e

/-! ## Helper lemmas -/

theorem dropWhile_dropWhile_same {α : Type} (p : α → Bool) (l : List α) :
    (l.dropWhile p).dropWhile p = l.dropWhile p := by
  induction l with
  | nil => rfl
  | cons a l ih =>
    cases h : p a
    · rw [List.dropWhile_cons_of_neg (by simp [h]),
        List.dropWhile_cons_of_neg (by simp [h])]
    · rw [List.dropWhile_cons_of_pos h]; exact ih

theorem head?_dropWhile_false {α : Type} (p : α → Bool) (l : List α) (a : α)
    (h : (l.dropWhile p).head? = some a) : p a = false := by
  induction l with
  | nil => simp at h
  | cons b l ih =>
    cases hb : p b
    · rw [List.dropWhile_cons_of_neg (by simp [hb])] at h
      simp only [List.head?_cons, Option.some.injEq] at h
      rwa [← h]
    · rw [List.dropWhile_cons_of_pos hb] at h; exact ih h

theorem getLast?_reverse_eq_head? {α : Type} (l : List α) :
    l.reverse.getLast? = l.head? := by
  cases l with
  | nil => rfl
  | cons a l => simp [List.reverse_cons, List.getLast?_concat]

theorem rstripSlash_idem (s : String) :
    rstripSlash (rstripSlash s) = rstripSlash s := by
  simp [rstripSlash, dropWhile_dropWhile_same]

theorem rstripSlash_no_trailing (s : String) :
    (rstripSlash s).data.getLast? ≠ some '/' := by
  intro h
  rw [rstripSlash] at h
  have h2 : ((s.data.reverse.dropWhile (fun c => c = '/')).reverse).getLast?
      = some '/' := h
  rw [getLast?_reverse_eq_head?] at h2
  have := head?_dropWhile_false (fun c => c = '/') s.data.reverse '/' h2
  simp at this

theorem normalize_shape (s t : String) (h : normalize_base_url s = some t) :
    t = rstripSlash (if hasScheme (pyStrip s) then pyStrip s
      else "http://" ++ pyStrip s) := by
  rw [normalize_base_url] at h
  split at h
  · cases h
  · exact (Option.some.inj h).symm

theorem all_str_filter (parts : List JVal)
    (h : ∀ p ∈ parts, ∃ s, p = JVal.str s) :
    (parts.filter truthy).all isStrV = true := by
  rw [List.all_eq_true]
  intro x hx
  obtain ⟨s, rfl⟩ := h x (List.mem_of_mem_filter hx)
  rfl

theorem filter_strings_comm (parts : List JVal)
    (h : ∀ p ∈ parts, ∃ s, p = JVal.str s) :
    (parts.filter truthy).filterMap asStr
      = (parts.filterMap asStr).filter (fun s => s ≠ "") := by
  induction parts with
  | nil => rfl
  | cons p ps ih =>
    obtain ⟨s, rfl⟩ := h p (List.mem_cons_self p ps)
    have ih2 := ih (fun q hq => h q (List.mem_cons_of_mem _ hq))
    by_cases hs : s = ""
    · subst hs
      simp [List.filter_cons, List.filterMap_cons, truthy, asStr, ih2]
    · simp [List.filter_cons, List.filterMap_cons, truthy, asStr, hs, ih2]

theorem joinTexts_strings (parts : List JVal)
    (h : ∀ p ∈ parts, ∃ s, p = JVal.str s) :
    joinTexts parts = some (String.intercalate "\n"
      ((parts.filterMap asStr).filter (fun s => s ≠ ""))) := by
  rw [joinTexts, all_str_filter parts h, filter_strings_comm parts h]
  simp

theorem idsAfter_eq_range' (n : Nat) :
    ∀ c : ClientState, idsAfter n c = List.range' (c.id_counter + 1) n := by
  induction n with
  | zero => intro c; rfl
  | succ n ih => intro c; simp [idsAfter, next_id, ih, List.range']

theorem wsDrain_spec (reqId : Int) :
    ∀ frames fs, wsDrain reqId frames = .ok fs →
      pyEqInt (jGetD fs "id" .null) reqId = true ∧
      ∃ pre f rest, frames = pre ++ f :: rest ∧
        json_loads f = some (.obj fs) ∧
        ∀ g ∈ pre, ∃ gf, json_loads g = some (.obj gf) ∧
          pyEqInt (jGetD gf "id" .null) reqId = false := by
  intro frames
  induction frames with
  | nil => intro fs h; simp [wsDrain] at h
  | cons f rest ih =>
    intro fs h
    rw [wsDrain] at h
    split at h
    · cases h
    · rename_i gfs hjl
      split at h
      · rename_i hm
        cases h
        exact ⟨hm, [], f, rest, rfl, hjl, by simp⟩
      · rename_i hm
        obtain ⟨h1, pre, f2, rest2, hfr, hjl2, hpre⟩ := ih fs h
        refine ⟨h1, f :: pre, f2, rest2, by rw [hfr]; rfl, hjl2, ?_⟩
        intro g hg
        rcases List.mem_cons.mp hg with hgf | hgp
        · subst hgf
          exact ⟨gfs, hjl, Bool.eq_false_iff.mpr hm⟩
        · exact hpre g hgp
    · cases h

theorem retryExchange_forced (payload : JVal) (resp : Nat → HttpResp)
    (h : ∀ i, status_forcelist.contains (resp i).status = true) :
    ∀ r i, retryExchange payload resp r i
      = (List.replicate (r + 1) payload, resp (i + r)) := by
  intro r
  induction r with
  | zero => intro i; simp [retryExchange]
  | succ r ih =>
    intro i
    rw [retryExchange, if_pos (h i), ih (i + 1)]
    simp only [Prod.mk.injEq]
    constructor
    · simp [List.replicate_succ]
    · exact congrArg resp (by omega)

theorem retryExchange_first_final (payload : JVal) (resp : Nat → HttpResp)
    (h : status_forcelist.contains (resp 0).status = false) :
    ∀ r, retryExchange payload resp r 0 = ([payload], resp 0) := by
  intro r
  cases r with
  | zero => rfl
  | succ r => rw [retryExchange, if_neg (by rw [h]; exact Bool.false_ne_true)]

theorem retryExchange_sent (payload : JVal) (resp : Nat → HttpResp) :
    ∀ r i q, q ∈ (retryExchange payload resp r i).1 → q = payload := by
  intro r
  induction r with
  | zero =>
    intro i q hq
    simp [retryExchange] at hq
    exact hq
  | succ r ih =>
    intro i q hq
    rw [retryExchange] at hq
    by_cases hf : status_forcelist.contains (resp i).status = true
    · rw [if_pos hf] at hq
      rcases List.mem_cons.mp hq with h1 | h2
      · exact h1
      · exact ih (i + 1) q h2
    · rw [if_neg hf] at hq
      simp at hq
      exact hq

/-! ## Claim theorems -/

/-- C6: the base addresses "1.2.3.4:8080", "http://1.2.3.4:8080/" and
"1.2.3.4:8080/" all normalize to the same effective RPC endpoint
http://1.2.3.4:8080/mcp (whitespace stripped, the http scheme prefixed
when no recognized scheme is present, trailing slashes removed, the fixed
path /mcp appended); moreover a normalized base never ends in a slash. -/
theorem C6_rpc_endpoint :
    rpcEndpoint "1.2.3.4:8080" = some "http://1.2.3.4:8080/mcp" ∧
    rpcEndpoint "http://1.2.3.4:8080/" = some "http://1.2.3.4:8080/mcp" ∧
    rpcEndpoint "1.2.3.4:8080/" = some "http://1.2.3.4:8080/mcp" ∧
    ∀ s t, normalize_base_url s = some t → t.data.getLast? ≠ some '/' := by
  refine ⟨by decide, by decide, by decide, ?_⟩
  intro s t h
  rw [normalize_shape s t h]
  exact rstripSlash_no_trailing _

/-- C6 witness: the no-trailing-slash clause instantiated at
"1.2.3.4:8080/". -/
theorem C6_witness :
    normalize_base_url "1.2.3.4:8080/" = some "http://1.2.3.4:8080" ∧
    ("http://1.2.3.4:8080" : String).data.getLast? ≠ some '/' :=
  ⟨by decide,
   C6_rpc_endpoint.2.2.2 "1.2.3.4:8080/" "http://1.2.3.4:8080" (by decide)⟩

/-- C7: a capability call whose required string field is None, empty or
whitespace-only raises the validation error before any network activity:
nothing is sent, the outcome is the validation error, and the client
state (id counter and socket handle) is returned unchanged.  Shown for
`call_tool`'s name and for the `search_contacts` wrapper's query. -/
theorem C7_validation_first :
    (∀ c env args, call_tool c env none args
      = (.validationError "name is required", c, [])) ∧
    (∀ c env args s, pyStrip s = "" → call_tool c env (some s) args
      = (.validationError "name is required", c, [])) ∧
    (∀ c env limit, search_contacts c env none limit
      = (.validationError "query is required", c, [])) ∧
    (∀ c env limit s, pyStrip s = "" → search_contacts c env (some s) limit
      = (.validationError "query is required", c, [])) := by
  refine ⟨fun c env args => rfl, ?_, fun c env limit => rfl, ?_⟩
  · intro c env args s hs
    simp [call_tool, require_non_empty, hs]
  · intro c env limit s hs
    simp [search_contacts, require_non_empty, hs]

/-- C7 witness: a whitespace-only tool name on a fresh client. -/
theorem C7_witness :
    call_tool initClient ⟨true, true, []⟩ (some "   ") none
      = (.validationError "name is required", initClient, []) :=
  C7_validation_first.2.1 initClient ⟨true, true, []⟩ none "   " (by decide)

/-- C8: the serialized request envelope carries exactly the keys jsonrpc
("2.0"), id and method when params is not supplied — the params key is
omitted entirely, not encoded as null — and exactly those three plus
params when it is supplied. -/
theorem C8_envelope_shape :
    (∀ reqId method, (build_payload reqId method none).map Prod.fst
      = ["jsonrpc", "id", "method"]) ∧
    (∀ reqId method, jGet (build_payload reqId method none) "params" = none) ∧
    (∀ reqId method p, (build_payload reqId method (some p)).map Prod.fst
      = ["jsonrpc", "id", "method", "params"]) ∧
    (∀ reqId method p, jGet (build_payload reqId method (some p)) "params"
      = some p) ∧
    (∀ reqId method params, jGet (build_payload reqId method params) "jsonrpc"
      = some (.str "2.0")) ∧
    (∀ reqId method params, jGet (build_payload reqId method params) "id"
      = some (.num reqId)) ∧
    (∀ reqId method params, jGet (build_payload reqId method params) "method"
      = some (.str method)) := by
  refine ⟨fun i m => rfl, fun i m => rfl, fun i m p => rfl, fun i m p => rfl,
    ?_, ?_, ?_⟩
  · intro i m params; cases params <;> rfl
  · intro i m params; cases params <;> rfl
  · intro i m params; cases params <;> rfl

/-- C10 counterexample: normalization is not idempotent as claimed — the
accepted input "http://" normalizes to "http:" (the trailing-slash strip
eats the scheme's slashes), and re-normalizing "http:" yields
"http://http:", not "http:". -/
theorem C10_counterexample :
    normalize_base_url "http://" = some "http:" ∧
    normalize_base_url "http:" ≠ some "http:" := by decide

/-- C10 amended: normalization is idempotent on every accepted input whose
output still starts with a recognized scheme and is its own strip (which
every ordinary address satisfies; the exceptions are scheme-only inputs
such as "http://", whose output degrades to "http:", and inputs whose
trailing slashes guard inner whitespace, such as "a /"). -/
theorem C10_normalize_idem (s t : String) (h : normalize_base_url s = some t)
    (hsch : hasScheme t = true) (hstrip : pyStrip t = t) :
    normalize_base_url t = some t := by
  have ht := normalize_shape s t h
  have hne : t ≠ "" := by
    intro h0; rw [h0] at hsch; exact absurd hsch (by decide)
  unfold normalize_base_url
  rw [hstrip, if_neg hne, if_pos hsch]
  rw [ht, rstripSlash_idem]

/-- C10 witness: idempotence at the ordinary address "1.2.3.4:8080". -/
theorem C10_witness :
    normalize_base_url "http://1.2.3.4:8080" = some "http://1.2.3.4:8080" :=
  C10_normalize_idem "1.2.3.4:8080" "http://1.2.3.4:8080"
    (by decide) (by decide) (by decide)

/-- C2: the request ids assigned across a client's lifetime are exactly
1, 2, 3, … — strictly increasing, never reused, never skipped backward —
and the socket receive loop only ever consumes an envelope whose id
matches the request id just sent, discarding every earlier received
object whose id does not match. -/
theorem C2_request_ids :
    (∀ n, idsAfter n initClient = List.range' 1 n) ∧
    (∀ n c, List.Chain' (· < ·) (idsAfter n c)) ∧
    (∀ n c, (idsAfter n c).Nodup) ∧
    (∀ reqId frames fs, wsDrain reqId frames = .ok fs →
      pyEqInt (jGetD fs "id" .null) reqId = true ∧
      ∃ pre f rest, frames = pre ++ f :: rest ∧
        json_loads f = some (.obj fs) ∧
        ∀ g ∈ pre, ∃ gf, json_loads g = some (.obj gf) ∧
          pyEqInt (jGetD gf "id" .null) reqId = false) := by
  refine ⟨fun n => idsAfter_eq_range' n initClient, ?_, ?_,
    fun reqId frames fs h => wsDrain_spec reqId frames fs h⟩
  · intro n c
    rw [idsAfter_eq_range' n c]
    exact (List.pairwise_lt_range' _ _).chain'
  · intro n c
    rw [idsAfter_eq_range' n c]
    exact List.nodup_range' _ _

/-- C2 witness: a non-matching frame is discarded and the matching one
consumed. -/
theorem C2_witness :
    pyEqInt (jGetD [("id", JVal.num 2), ("result", JVal.num 5)] "id" .null) 2
      = true ∧
    ∃ pre f rest,
      ["\x7b\"id\":1\x7d", "\x7b\"id\":2,\"result\":5\x7d"] = pre ++ f :: rest ∧
      json_loads f = some (.obj [("id", JVal.num 2), ("result", JVal.num 5)]) ∧
      ∀ g ∈ pre, ∃ gf, json_loads g = some (.obj gf) ∧
        pyEqInt (jGetD gf "id" .null) 2 = false :=
  C2_request_ids.2.2.2 2 ["\x7b\"id\":1\x7d", "\x7b\"id\":2,\"result\":5\x7d"]
    [("id", JVal.num 2), ("result", JVal.num 5)] (by decide)

/-- C3 counterexample: the message is not carried verbatim — a remote
error object whose message is the empty string is surfaced with the
fallback message "Unknown MCP error" instead, even though a result member
is also present (precedence itself holds). -/
theorem C3_counterexample :
    inspectEnvelope
        [("error", .obj [("code", .num 1), ("message", .str "")]),
         ("result", .num 7)]
      = .rpcError (.num 1) (.str "Unknown MCP error") .null ∧
    JVal.str "Unknown MCP error" ≠ JVal.str "" := by decide

/-- C3 amended: an error member takes precedence over any result; a
non-object error member raises the protocol error; an object error member
raises an RPC error carrying its code and data fields verbatim and its
message verbatim when truthy, the fixed fallback otherwise; without an
error member the result member (null when absent) is returned. -/
theorem C3_error_precedence :
    (∀ fields e, jGet fields "error" = some e → (∀ efs, e ≠ JVal.obj efs) →
      inspectEnvelope fields
        = .protocolError "Invalid JSON-RPC error payload") ∧
    (∀ fields efs, jGet fields "error" = some (.obj efs) →
      inspectEnvelope fields = .rpcError (jGetD efs "code" .null)
        (if truthy (jGetD efs "message" .null) then jGetD efs "message" .null
         else .str "Unknown MCP error")
        (jGetD efs "data" .null)) ∧
    (∀ fields, jGet fields "error" = none →
      inspectEnvelope fields = .ok (jGetD fields "result" .null)) := by
  refine ⟨?_, ?_, ?_⟩
  · intro fields e he hne
    have hk : hasKey fields "error" = true := by simp [hasKey, he]
    have hd : jGetD fields "error" .null = e := by simp [jGetD, he]
    rw [inspectEnvelope, if_pos hk, hd]
    cases e with
    | obj efs => exact absurd rfl (hne efs)
    | null => rfl
    | bool b => rfl
    | num n => rfl
    | flt l => rfl
    | str s => rfl
    | arr xs => rfl
  · intro fields efs he
    have hk : hasKey fields "error" = true := by simp [hasKey, he]
    have hd : jGetD fields "error" .null = .obj efs := by simp [jGetD, he]
    rw [inspectEnvelope, if_pos hk, hd]
  · intro fields he
    have hk : hasKey fields "error" = false := by simp [hasKey, he]
    rw [inspectEnvelope, if_neg (by rw [hk]; exact Bool.false_ne_true)]

/-- C3 witness: a well-formed remote error is carried through. -/
theorem C3_witness :
    inspectEnvelope
        [("error", .obj [("code", .num (-32600)), ("message", .str "bad"),
          ("data", .str "d")])]
      = .rpcError (.num (-32600)) (.str "bad") (.str "d") :=
  (C3_error_precedence.2.1
    [("error", .obj [("code", .num (-32600)), ("message", .str "bad"),
      ("data", .str "d")])]
    [("code", .num (-32600)), ("message", .str "bad"), ("data", .str "d")]
    (by decide)).trans (by decide)

/-- C4 counterexample: "any non-2xx HTTP status raises a connection-class
error" fails — a final 304 response (requests neither follows it nor
counts it as an HTTP error) passes `raise_for_status` and instead
surfaces as a protocol error from decoding its empty body. -/
theorem C4_counterexample :
    (http_request_json "http://1.2.3.4:8080/mcp" (.obj [])
        (fun _ => ⟨304, ""⟩) 2).1
      = .protocolError "Non-JSON response from http://1.2.3.4:8080/mcp: " ∧
    CallOutcome.protocolError "Non-JSON response from http://1.2.3.4:8080/mcp: "
      ≠ .connError "Request failed" := by decide

/-- C4 amended: a status in the force list (408, 429, 500, 502, 503, 504)
is retried up to the configured maximum attempt count (maxRetries + 1
sends in all) before the connection error surfaces; 404 is never retried;
any 4xx or 5xx final status (rather than any non-2xx) surfaces as a
connection error once the policy is exhausted; and every attempt re-sends
the identical payload, so retries never change the request id. -/
theorem C4_http_retry :
    (∀ url payload maxR s body, status_forcelist.contains s = true →
      http_request_json url payload (fun _ => ⟨s, body⟩) maxR
        = (.connError "Request failed", List.replicate (maxR + 1) payload)) ∧
    (∀ url payload maxR resp, (resp 0).status = 404 →
      http_request_json url payload resp maxR
        = (.connError "Request failed", [payload])) ∧
    (∀ url payload maxR resp,
      400 ≤ (retryExchange payload resp maxR 0).2.status →
      (retryExchange payload resp maxR 0).2.status < 600 →
      (http_request_json url payload resp maxR).1
        = .connError "Request failed") ∧
    (∀ url payload maxR resp q,
      q ∈ (http_request_json url payload resp maxR).2 → q = payload) := by
  refine ⟨?_, ?_, ?_, ?_⟩
  · intro url payload maxR s body hs
    have hmem : s ∈ ([408, 429, 500, 502, 503, 504] : List Nat) := by
      simpa [status_forcelist] using hs
    have hb1 : 400 ≤ s := by fin_cases hmem <;> decide
    have hb2 : s < 600 := by fin_cases hmem <;> decide
    have hf := retryExchange_forced payload (fun _ => ⟨s, body⟩)
      (fun _ => hs) maxR 0
    unfold http_request_json
    rw [hf]
    rw [if_pos (by simp [hb1, hb2])]
  · intro url payload maxR resp h404
    have hc : status_forcelist.contains (resp 0).status = false := by
      rw [h404]; decide
    have hf := retryExchange_first_final payload resp hc maxR
    unfold http_request_json
    rw [hf]
    rw [if_pos (by rw [h404]; decide)]
  · intro url payload maxR resp h1 h2
    unfold http_request_json
    rw [if_pos (by simp [h1, h2])]
  · intro url payload maxR resp q hq
    unfold http_request_json at hq
    split at hq
    · exact retryExchange_sent payload resp maxR 0 q hq
    · split at hq
      · exact retryExchange_sent payload resp maxR 0 q hq
      · exact retryExchange_sent payload resp maxR 0 q hq
      · exact retryExchange_sent payload resp maxR 0 q hq

/-- C4 witness: a constant-503 server with the default two retries means
three identical sends and a connection error. -/
theorem C4_witness :
    http_request_json "http://1.2.3.4:8080/mcp" (.obj [("id", .num 1)])
        (fun _ => ⟨503, ""⟩) 2
      = (.connError "Request failed",
         List.replicate 3 (JVal.obj [("id", .num 1)])) :=
  C4_http_retry.1 "http://1.2.3.4:8080/mcp" (.obj [("id", .num 1)]) 2 503 ""
    (by decide)

/-- C5: on the socket transport a send, receive or decode failure during
the exchange closes and discards the cached handle (back to absent) and
raises a connection error; a failure to open the connection also raises a
connection error; and after a mid-exchange failure the next dispatch
attempts a fresh open (here: it fails with the open-failure error when
the fresh open is refused). -/
theorem C5_socket_teardown :
    (∀ c env method params, c.ws = none → env.openOk = false →
      wsRpc c env method params
        = (.connError "WebSocket connection failed",
           ⟨c.id_counter + 1, none⟩, [])) ∧
    (∀ c env method params, (c.ws = some () ∨ env.openOk = true) →
      env.sendOk = false →
      (wsRpc c env method params).1
          = .connError "WebSocket communication failed: send" ∧
        (wsRpc c env method params).2.1.ws = none ∧
        (wsRpc c env method params).2.1.id_counter = c.id_counter + 1) ∧
    (∀ c env method params e, (c.ws = some () ∨ env.openOk = true) →
      env.sendOk = true →
      wsDrain ((c.id_counter : Int) + 1) env.frames = .error e →
      (wsRpc c env method params).1
          = .connError ("WebSocket communication failed: " ++ e) ∧
        (wsRpc c env method params).2.1.ws = none) ∧
    (∀ c env env2 method params, (c.ws = some () ∨ env.openOk = true) →
      env.sendOk = false → env2.openOk = false →
      (wsRpc (wsRpc c env method params).2.1 env2 method params).1
        = .connError "WebSocket connection failed") := by
  refine ⟨?_, ?_, ?_, ?_⟩
  · intro c env method params h1 h2
    simp [wsRpc, next_id, h1, h2]
  · intro c env method params hws hsend
    rcases hws with h | h <;> simp [wsRpc, next_id, h, hsend]
  · intro c env method params e hws hsend hdrain
    rcases hws with h | h <;> simp [wsRpc, next_id, h, hsend, hdrain]
  · intro c env env2 method params hws hsend hopen2
    rcases hws with h | h <;> simp [wsRpc, next_id, h, hsend, hopen2]

/-- C1 counterexample: the decoder does not return an object with a
non-decodable content member unchanged — a dict whose `content` member is
a number is not iterable, so the list comprehension raises an unhandled
`TypeError` instead of yielding the empty concatenation. -/
theorem C1_counterexample :
    decode_tool_result (.obj [("content", .num 5)]) = .typeError ∧
    CallOutcome.typeError ≠ .ok (.obj [("content", .num 5)]) := by decide

/-- C1 amended: the ordered first-match algorithm holds as claimed
provided the scan of a `content` member cannot fault — here stated for a
content list whose text-typed parts carry string (or absent) text fields;
a non-iterable content value or a truthy non-string text part raises an
unhandled type error instead.  (1) truthy `isError` with a non-empty
`toolError` string raises the tool error with that string, the fixed
fallback when it is absent or empty; (2) a `content` list yields the
newline-concatenation of the non-empty text fields of its text-typed
parts — parsed as JSON when possible, the raw text otherwise, the
original object unchanged when empty; (3) everything else passes through.
The four worked examples of the claim close the conjunction. -/
theorem C1_decode_algorithm :
    (∀ fs s, truthy (jGetD fs "isError" .null) = true →
      jGet fs "toolError" = some (.str s) → s ≠ "" →
      decode_tool_result (.obj fs) = .toolError s) ∧
    (∀ fs, truthy (jGetD fs "isError" .null) = true →
      jGet fs "toolError" = none ∨ jGet fs "toolError" = some (.str "") →
      decode_tool_result (.obj fs) = .toolError "Unknown tool error") ∧
    (∀ fs elems, truthy (jGetD fs "isError" .null) = false →
      jGet fs "content" = some (.arr elems) →
      (∀ p ∈ textParts elems, ∃ s, p = JVal.str s) →
      decode_tool_result (.obj fs) =
        (if decodedText elems = "" then .ok (.obj fs)
         else match json_loads (decodedText elems) with
           | some v => .ok v
           | none => .ok (.str (decodedText elems)))) ∧
    (∀ v, (∀ fs, v ≠ JVal.obj fs) → decode_tool_result v = .ok v) ∧
    (∀ fs, truthy (jGetD fs "isError" .null) = false →
      jGet fs "content" = none →
      decode_tool_result (.obj fs) = .ok (.obj fs)) ∧
    decode_tool_result (.obj [("content", .arr [.obj [("type", .str "text"),
      ("text", .str "\x7b\"a\":1\x7d")]])]) = .ok (.obj [("a", .num 1)]) ∧
    decode_tool_result (.obj [("content", .arr [.obj [("type", .str "text"),
      ("text", .str "plain")]])]) = .ok (.str "plain") ∧
    decode_tool_result (.obj [("isError", .bool true),
      ("toolError", .str "boom")]) = .toolError "boom" ∧
    decode_tool_result (.obj [("isError", .bool true)])
      = .toolError "Unknown tool error" := by
  refine ⟨?_, ?_, ?_, ?_, ?_, by decide, by decide, by decide, by decide⟩
  · intro fs s hErr hTool hs
    have hd : jGetD fs "toolError" .null = .str s := by simp [jGetD, hTool]
    simp only [decode_tool_result]
    rw [if_pos hErr, hd, if_pos (show truthy (JVal.str s) = true by
      simp [truthy, hs])]
    rfl
  · intro fs hErr hTool
    rcases hTool with hTool | hTool
    · have hd : jGetD fs "toolError" .null = .null := by simp [jGetD, hTool]
      simp only [decode_tool_result]
      rw [if_pos hErr, hd, if_neg (show ¬truthy JVal.null = true by decide)]
      rfl
    · have hd : jGetD fs "toolError" .null = .str "" := by simp [jGetD, hTool]
      simp only [decode_tool_result]
      rw [if_pos hErr, hd, if_neg (show ¬truthy (JVal.str "") = true by decide)]
      rfl
  · intro fs elems hErr hContent hStrings
    have hk : hasKey fs "content" = true := by simp [hasKey, hContent]
    have hd : jGetD fs "content" .null = .arr elems := by
      simp [jGetD, hContent]
    have hjoin : joinTexts (textParts elems) = some (decodedText elems) :=
      joinTexts_strings (textParts elems) hStrings
    simp [decode_tool_result, hErr, hk, hd, iterElems, hjoin]
  · intro v hv
    cases v with
    | obj fs => exact absurd rfl (hv fs)
    | null => rfl
    | bool b => rfl
    | num n => rfl
    | flt l => rfl
    | str s => rfl
    | arr xs => rfl
  · intro fs hErr hContent
    have hk : hasKey fs "content" = false := by simp [hasKey, hContent]
    simp [decode_tool_result, hErr, hk]

/-- C1 witness: a truthy numeric error flag with a tool message. -/
theorem C1_witness :
    decode_tool_result (.obj [("isError", .num 1),
        ("toolError", .str "disk full")]) = .toolError "disk full" :=
  C1_decode_algorithm.1 [("isError", .num 1), ("toolError", .str "disk full")]
    "disk full" (by decide) (by decide) (by decide)

/-- C9 counterexample: the round trip is not the identity on every
passthrough shape as the claim delimits them — a dict whose `content`
member is `true` carries no decodable content (and no truthy `isError`),
yet dispatch-then-decode raises an unhandled type error instead of
returning it unchanged. -/
theorem C9_counterexample :
    roundTrip (.obj [("content", .bool true)]) = .typeError ∧
    CallOutcome.typeError ≠ .ok (.obj [("content", .bool true)]) := by decide

/-- The round trip factors through the decoder: the synthetic envelope
carries no error member, so inspection returns its result member. -/
theorem roundTrip_eq_decode (v : JVal) :
    roundTrip v = decode_tool_result v := rfl

/-- C9 amended: dispatching a request and decoding a synthetic matching
response whose result member is v returns exactly v for every
passthrough shape, where any `content` member present must additionally
scan without a type fault (to an empty concatenation) — shapes whose
content faults the scan raise an unhandled type error instead. -/
theorem C9_roundtrip_identity (v : JVal) (h : isPassthrough v = true) :
    roundTrip v = .ok v := by
  rw [roundTrip_eq_decode]
  cases v with
  | null => rfl
  | bool b => rfl
  | num n => rfl
  | flt l => rfl
  | str s => rfl
  | arr xs => rfl
  | obj fs =>
    simp only [isPassthrough, Bool.and_eq_true, Bool.not_eq_true'] at h
    obtain ⟨hErr, hRest⟩ := h
    cases hjc : jGet fs "content" with
    | none =>
      have hk : hasKey fs "content" = false := by simp [hasKey, hjc]
      simp [decode_tool_result, hErr, hk]
    | some c =>
      rw [hjc] at hRest
      have hci : contentInert c = true := by simpa using hRest
      have hk : hasKey fs "content" = true := by simp [hasKey, hjc]
      have hd : jGetD fs "content" .null = c := by simp [jGetD, hjc]
      cases hie : iterElems c with
      | none => simp [contentInert, hie] at hci
      | some elems =>
        cases hjt : joinTexts (textParts elems) with
        | none => simp [contentInert, hie, hjt] at hci
        | some text =>
          have htext : text = "" := by
            simpa [contentInert, hie, hjt] using hci
          subst htext
          simp [decode_tool_result, hErr, hk, hd, hie, hjt]

/-- C9 witness: a plain string result passes through unchanged. -/
theorem C9_witness :
    roundTrip (.str "already decoded") = .ok (.str "already decoded") :=
  C9_roundtrip_identity (.str "already decoded") (by decide)

/-- C5 witness: a send failure on an open cached connection clears the
handle and surfaces a connection error. -/
theorem C5_witness :
    (wsRpc ⟨0, some ()⟩ ⟨false, false, []⟩ "tools/list" none).1
        = .connError "WebSocket communication failed: send" ∧
      (wsRpc ⟨0, some ()⟩ ⟨false, false, []⟩ "tools/list" none).2.1.ws = none ∧
      (wsRpc ⟨0, some ()⟩ ⟨false, false, []⟩ "tools/list" none).2.1.id_counter
        = 0 + 1 :=
  C5_socket_teardown.2.1 ⟨0, some ()⟩ ⟨false, false, []⟩ "tools/list" none
    (Or.inl rfl) rfl

end PocketMCP
